import Mathlib

/-!
Verification development for the Applio macOS wrapper
(`macos_wrapper.py`) and its build script (`build_macos.py`).

The Python sources are shallowly embedded: the shared mutable status
record becomes the structure `AppStatus`, the per-line body of
`ApplioApp.tail_logs` becomes the pure step function `stepLine`
(returning the updated status together with a flag that is `true`
exactly when the Python function executes `return`), and the regular
expressions of the tailer are embedded as explicit search/capture
functions over `List Char` with Python `re.search` semantics
(leftmost match, greedy `.*` and `\d+`).  Python floats are modelled
by `ℚ`; the monotonicity facts proved below depend only on signs and
order, which IEEE arithmetic preserves for these operations.
-/

namespace Applio

/-! ### Generic string machinery (Python `in`, `str.strip`, slicing) -/

/-- `isPrefixB pat s` : does `pat` occur at the head of `s`? -/
def isPrefixB : List Char → List Char → Bool
  | [], _ => true
  | _ :: _, [] => false
  | a :: as, b :: bs => a == b && isPrefixB as bs

/-- Python `pat in s`: does `pat` occur as a contiguous substring of `s`? -/
def containsB : List Char → List Char → Bool
  | pat, [] => isPrefixB pat []
  | pat, c :: rest => isPrefixB pat (c :: rest) || containsB pat rest

/-- ASCII whitespace, the characters `str.strip()` removes on the log
lines this program handles. -/
def isSpaceB (c : Char) : Bool :=
  c == ' ' || c == '\t' || c == '\n' || c == '\r' || c == '\x0b' || c == '\x0c'

/-- Python `s.strip()`. -/
def stripB (s : List Char) : List Char :=
  ((s.dropWhile isSpaceB).reverse.dropWhile isSpaceB).reverse

/-- Python `os.path.basename`: the text after the last `'/'`. -/
def basenameB (s : List Char) : List Char :=
  ((s.reverse).takeWhile (fun c => c != '/')).reverse

/-! ### Regex embeddings

Each compiled pattern of `tail_logs` is embedded as a dedicated
search/capture function.  `re.search` picks the leftmost position at
which the whole pattern can match; a greedy `(.*)` followed by a
literal captures up to the last occurrence of that literal in the
remaining text; a greedy `(.*)` at the end of the pattern captures the
whole remaining text. -/

/-- The text of `s` strictly before the last occurrence of `lit`
(`none` when `lit` does not occur): the greedy capture of a
`(.*)`-before-literal group. -/
def lastSplit (lit : List Char) : List Char → Option (List Char)
  | [] => none
  | c :: rest =>
    match lastSplit lit rest with
    | some tail => some (c :: tail)
    | none => if isPrefixB lit (c :: rest) then some [] else none

/-- Capture of `lit1(.*)lit2` under `re.search`: leftmost occurrence of
`lit1` followed (anywhere later) by `lit2`; the group is the greedy
stretch up to the last occurrence of `lit2`. -/
def captureBetween (lit1 lit2 : List Char) : List Char → Option (List Char)
  | [] => none
  | c :: rest =>
    if isPrefixB lit1 (c :: rest) then
      match lastSplit lit2 (List.drop lit1.length (c :: rest)) with
      | some cap => some cap
      | none => captureBetween lit1 lit2 rest
    else captureBetween lit1 lit2 rest

/-- Capture of `lit(.*)` under `re.search` (also Python
`s.split(lit, 1)[1]`): everything after the first occurrence of `lit`. -/
def captureAfter (lit : List Char) : List Char → Option (List Char)
  | [] => none
  | c :: rest =>
    if isPrefixB lit (c :: rest) then some (List.drop lit.length (c :: rest))
    else captureAfter lit rest

/-- Accumulates a digit run begun with value `acc`; succeeds when the
run is terminated by `'%'` (the `(\d+)%` tail of `p_dl_percent`). -/
def digitsValAux : List Char → ℕ → Option ℕ
  | [], _ => none
  | c :: rest, acc =>
    if c.isDigit then digitsValAux rest (acc * 10 + (c.toNat - 48))
    else if c == '%' then some acc else none

/-- Value of ` (\d+)%` matched as a prefix of `s`. -/
def sdpValAt : List Char → Option ℕ
  | ' ' :: c :: rest => if c.isDigit then digitsValAux rest (c.toNat - 48) else none
  | _ => none

/-- Value of the last position of `s` where ` (\d+)%` matches (the
greedy `.*` in `Downloading.* (\d+)%` runs to the last one). -/
def lastSDPVal : List Char → Option ℕ
  | [] => none
  | c :: rest =>
    match lastSDPVal rest with
    | some v => some v
    | none => sdpValAt (c :: rest)

/-- Literal word of `p_dl_percent`. -/
def dlWordLit : List Char := "Downloading".data

/-- `int(p_dl_percent.search(line).group(1))` for
`p_dl_percent = Downloading.* (\d+)%`; `none` when the pattern does
not match. -/
def dlPercentVal : List Char → Option ℕ
  | [] => none
  | c :: rest =>
    if isPrefixB dlWordLit (c :: rest) then
      match lastSDPVal (List.drop dlWordLit.length (c :: rest)) with
      | some v => some v
      | none => dlPercentVal rest
    else dlPercentVal rest

/-- Literal head of `p_dl_file = Downloading (.*)\.\.\.`. -/
def dlFileLit : List Char := "Downloading ".data

/-- Literal head of `p_extract = Extracting (.*)\.\.\.`. -/
def extractLit : List Char := "Extracting ".data

/-- Literal head of `p_pip_install = Installing collected packages: (.*)`. -/
def pipLit : List Char := "Installing collected packages: ".data

/-- Literal of `p_prereq = run_prerequisites_script`. -/
def prereqLit : List Char := "run_prerequisites_script".data

/-- Literal head of `p_device = Use (.*) acceleration`. -/
def deviceLit1 : List Char := "Use ".data

/-- Literal tail of `p_device`. -/
def deviceLit2 : List Char := " acceleration".data

/-- Literal of `p_init_app = Initializing Gradio boot sequence`. -/
def initAppLit : List Char := "Initializing Gradio boot sequence".data

/-- Literal head of `p_load_model = Loading (.*) model`. -/
def loadModelLit1 : List Char := "Loading ".data

/-- Literal tail of `p_load_model`. -/
def loadModelLit2 : List Char := " model".data

/-- Literal of `p_server = Running on local URL:.*`. -/
def serverLit : List Char := "Running on local URL:".data

/-- Literal of `p_responsive = Gradio backend is responsive`. -/
def responsiveLit : List Char := "Gradio backend is responsive".data

/-- The escaped dots `\.\.\.` ending `p_dl_file` and `p_extract`. -/
def dotsLit : List Char := "...".data

/-- Literal `it/s]` excluded by the generic fallback. -/
def itsLit : List Char := "it/s]".data

/-- Literal `:root:` stripped by the generic fallback. -/
def rootLit : List Char := ":root:".data

/-- Capture of `p_dl_file.search(line).group(1)`. -/
def dlFileCap (l : List Char) : Option (List Char) := captureBetween dlFileLit dotsLit l

/-- Capture of `p_extract.search(line).group(1)`. -/
def extractCap (l : List Char) : Option (List Char) := captureBetween extractLit dotsLit l

/-- Capture of `p_pip_install.search(line).group(1)`. -/
def pipCap (l : List Char) : Option (List Char) := captureAfter pipLit l

/-- Capture of `p_device.search(line).group(1)`. -/
def deviceCap (l : List Char) : Option (List Char) := captureBetween deviceLit1 deviceLit2 l

/-- Capture of `p_load_model.search(line).group(1)`. -/
def loadModelCap (l : List Char) : Option (List Char) :=
  captureBetween loadModelLit1 loadModelLit2 l

/-- The success condition of branch 5:
`p_server.search(line) or p_responsive.search(line)
 or "Gradio backend is responsive" in line` (the third disjunct is the
source's redundant repetition of the second). -/
def successMatch (l : List Char) : Bool :=
  containsB serverLit l || containsB responsiveLit l || containsB responsiveLit l

/-- Does any of the nine classifier conditions of `tail_logs` match
(if it does not, the line takes the generic fallback branch)? -/
def anyPatternMatch (l : List Char) : Bool :=
  (dlPercentVal l).isSome || (dlFileCap l).isSome || (extractCap l).isSome ||
  (pipCap l).isSome || containsB prereqLit l || (deviceCap l).isSome ||
  containsB initAppLit l || (loadModelCap l).isSome || successMatch l

/-! ### The shared status record and the tailer step -/

/-- The shared mutable state of `ApplioApp` read by the loading
server's `/api/status` handler and written by `tail_logs`
(`self.is_ready`, `self.heading`, `self.sub_heading`,
`self.technical_detail`, `self.progress`, `self.stage`). -/
structure AppStatus where
  is_ready : Bool
  heading : String
  sub_heading : String
  technical_detail : String
  progress : ℚ
  stage : String
deriving DecidableEq

/-- The field values set by `ApplioApp.__init__`. -/
def initStatus : AppStatus :=
  { is_ready := false
    heading := "System Calibration"
    sub_heading := "Initializing environment..."
    technical_detail := "Allocating memory..."
    progress := 0
    stage := "1/4" }

/-- The anti-stall creep applied at the top of every inner iteration of
`tail_logs`: `if not self.is_ready and self.progress < 95:
self.progress += (100 - self.progress) / 2000`. -/
def creep (s : AppStatus) : AppStatus :=
  if s.is_ready = false ∧ s.progress < 95 then
    { s with progress := s.progress + (100 - s.progress) / 2000 }
  else s

/-- `clean.split(":root:", 1)[1].strip()` applied when `":root:" in
clean`, identity otherwise (the first inner `if` of the fallback). -/
def rootClean (l : List Char) : List Char :=
  match captureAfter rootLit l with
  | some t => stripB t
  | none => l

/-- `if len(clean) > 60: clean = clean[:57] + "..."`. -/
def trunc60 (l : List Char) : List Char :=
  if 60 < l.length then l.take 57 ++ dotsLit else l

/-- The ordered if/elif classification chain of `tail_logs` applied to
one non-empty stripped line `l`.  Returns the updated status and
`true` exactly when the Python code executes `return` (the success
branch). -/
def classify (s : AppStatus) (l : List Char) : AppStatus × Bool :=
  match dlPercentVal l with
  | some val =>
    let s1 := { s with stage := "2/4", heading := "Synchronizing Assets" }
    (if (val : ℚ) > s1.progress then { s1 with progress := (val : ℚ) } else s1, false)
  | none =>
  match dlFileCap l with
  | some fname =>
    ({ s with
       stage := "2/4"
       heading := "Synchronizing Assets"
       sub_heading := "Fetching " ++ String.mk (basenameB fname)
       technical_detail := "Network Request: " ++ String.mk fname }, false)
  | none =>
  match extractCap l with
  | some fname =>
    ({ s with
       stage := "2/4"
       heading := "Decompressing Resources"
       sub_heading := "Unpacking " ++ String.mk (basenameB fname)
       technical_detail := "IO Operation: " ++ String.mk fname }, false)
  | none =>
  match pipCap l with
  | some pkgs0 =>
    let pkgs := if 30 < pkgs0.length then pkgs0.take 27 ++ dotsLit else pkgs0
    ({ s with
       stage := "2/4"
       heading := "Building Environment"
       sub_heading := "Installing " ++ String.mk pkgs
       technical_detail := String.mk l }, false)
  | none =>
  if containsB prereqLit l then
    ({ s with
       stage := "1/4"
       heading := "System Validation"
       sub_heading := "Checking Prerequisites..."
       progress := if s.progress < 10 then 10 else s.progress }, false)
  else
  match deviceCap l with
  | some device =>
    ({ s with
       heading := "Hardware Optimization"
       sub_heading := "Accelerating with " ++ String.mk device
       technical_detail := "Device allocation: " ++ String.mk device }, false)
  | none =>
  if containsB initAppLit l then
    ({ s with
       stage := "3/4"
       heading := "Booting Inference Engine"
       sub_heading := "Loading Neural Networks..."
       technical_detail := "Initializing pytorch contexts..."
       progress := if s.progress < 80 then 80 else s.progress }, false)
  else
  match loadModelCap l with
  | some model =>
    ({ s with
       heading := "Loading Models"
       sub_heading := "Hydrating " ++ String.mk model ++ "..."
       technical_detail := "Memory mapping " ++ String.mk model }, false)
  | none =>
  if successMatch l then
    ({ s with
       stage := "4/4"
       heading := "Initialization Complete"
       sub_heading := "Launching User Interface..."
       progress := 100
       is_ready := true }, true)
  else
    if 8 < l.length ∧ containsB itsLit l = false then
      let clean := trunc60 (rootClean l)
      let s1 := { s with technical_detail := String.mk clean }
      (if s1.stage = "1/4" ∧ s1.sub_heading = "Initializing environment..." then
        { s1 with sub_heading := "Configuring Runtime..." }
      else s1, false)
    else (s, false)

/-- One inner iteration of `tail_logs` on a raw `readline()` result:
creep, skip empty reads, strip, skip blank lines, classify. -/
def stepLine (s : AppStatus) (raw : String) : AppStatus × Bool :=
  let s1 := creep s
  if raw.data = [] then (s1, false)
  else
    let l := stripB raw.data
    if l = [] then (s1, false)
    else classify s1 l

/-! ### The loading server's `/api/status` handler -/

/-- A JSON value as emitted by `json.dumps` on the status dict: every
entry is a string or a number. -/
inductive JVal where
  | str (s : String)
  | num (q : ℚ)
deriving DecidableEq

/-- `round(x, 1)`.  CPython rounds the float to one decimal; the exact
half-even tie behaviour of binary floats is immaterial here, only that
the result is numeric. -/
def round1 (q : ℚ) : ℚ := (round (q * 10) : ℤ) / 10

/-- The `data` dict built by `LoadingHandler.do_GET` for
`/api/status`, in insertion order. -/
def statusJson (s : AppStatus) : List (String × JVal) :=
  [("heading", JVal.str s.heading),
   ("sub_heading", JVal.str s.sub_heading),
   ("progress", JVal.num (round1 s.progress)),
   ("stage", JVal.str s.stage),
   ("detail", JVal.str s.technical_detail)]

/-- A response body of the loading server. -/
inductive HttpBody where
  | json (fields : List (String × JVal))
  | html (content : String)
deriving DecidableEq

/-- `LoadingHandler.do_GET`: status code, Content-type header, body.
`loadingPage` is the outcome of reading `assets/loading.html` (an
error there yields the inline fallback page). -/
def doGET (path : String) (s : AppStatus) (loadingPage : Except String String) :
    ℕ × String × HttpBody :=
  if path = "/api/status" then
    (200, "application/json", HttpBody.json (statusJson s))
  else
    (200, "text/html",
      HttpBody.html (match loadingPage with
        | .ok h => h
        | .error e => "<h1>Loading Applio...</h1><p>" ++ e ++ "</p>"))

/-! ### Backend readiness polling and the window transition -/

/-- Outcome of one `urllib.request.urlopen` probe: a response with an
HTTP status, or a raised exception. -/
inductive Poll where
  | ok (status : ℕ)
  | exc
deriving DecidableEq

/-- The window actions `monitor_transition` can perform. -/
inductive WinAction where
  | loadUrl (url : String)
  | loadHtml (html : String)
deriving DecidableEq

/-- `self.server_host`. -/
def serverHost : String := "127.0.0.1"

/-- `self.server_port`. -/
def serverPort : ℕ := 6969

/-- The backend URL `f"http://{host}:{port}"` used by both
`wait_for_backend` and `monitor_transition`. -/
def backendUrl : String := "http://" ++ serverHost ++ ":" ++ toString serverPort

/-- The default `timeout=300` of `wait_for_backend`, in seconds. -/
def backendTimeout : ℚ := 300

/-- The constant argument of the `time.sleep(1)` in the exception arm
of `wait_for_backend`. -/
def sleepInterval : ℚ := 1

/-- The HTML substituted on timeout by `monitor_transition`. -/
def startupErrorHtml : String :=
  "<h1>Startup Error</h1><p>The server failed to respond in time.</p>"

/-- The `while time.time() - start_time < timeout` loop of
`wait_for_backend`.  `probe k` is the outcome of the `k`-th `urlopen`,
`elapsed k` the value of `time.time() - start_time` at the `k`-th
loop-condition check (urlopen latency and sleeps are absorbed into
`elapsed`).  Returns `some true` on an observed 200 (the code also
sets `self.is_ready = True` there), `some false` on timeout, `none`
when `fuel` iterations were not enough to decide; the second component
records the argument of every executed `time.sleep`. -/
def waitLoopAux (probe : ℕ → Poll) (elapsed : ℕ → ℚ) :
    ℕ → ℕ → Option Bool × List ℚ
  | 0, _ => (none, [])
  | fuel + 1, k =>
    if elapsed k < backendTimeout then
      match probe k with
      | .ok st =>
        if st = 200 then (some true, [])
        else waitLoopAux probe elapsed fuel (k + 1)
      | .exc =>
        let r := waitLoopAux probe elapsed fuel (k + 1)
        (r.1, sleepInterval :: r.2)
    else (some false, [])

/-- `ApplioApp.wait_for_backend` with its default timeout. -/
def waitForBackend (probe : ℕ → Poll) (elapsed : ℕ → ℚ) (fuel : ℕ) :
    Option Bool × List ℚ :=
  waitLoopAux probe elapsed fuel 0

/-- `ApplioApp.monitor_transition`: on readiness (after a cosmetic
1.5 s sleep) load the real backend URL; on timeout load the inline
error page; either action only when `self.window` is set. -/
def monitorTransition (probe : ℕ → Poll) (elapsed : ℕ → ℚ) (fuel : ℕ)
    (hasWindow : Bool) : List WinAction :=
  match (waitForBackend probe elapsed fuel).1 with
  | some true => if hasWindow then [WinAction.loadUrl backendUrl] else []
  | some false => if hasWindow then [WinAction.loadHtml startupErrorHtml] else []
  | none => []

/-- The `k`-th probe observes an HTTP 200 with every loop-condition
check up to and including the `k`-th still inside the timeout. -/
def observes200 (probe : ℕ → Poll) (elapsed : ℕ → ℚ) (k : ℕ) : Prop :=
  probe k = Poll.ok 200 ∧ ∀ j ≤ k, elapsed j < backendTimeout

/-! ### `start_backend` -/

/-- How the body of `ApplioApp.start_backend` runs: the
`from app import launch_gradio` import raises, `launch_gradio` raises,
or everything returns. -/
inductive BackendRun where
  | ok
  | importFails (e : String)
  | launchFails (e : String)
deriving DecidableEq

/-- `ApplioApp.start_backend`: the whole body is wrapped in
`try/except Exception`, which logs and falls off the end.  Returns the
(unchanged) status record, the window actions performed (none), and
the log lines emitted.  Being a total function, it models that the
thread exits normally in every case. -/
def startBackend (run : BackendRun) (s : AppStatus) :
    AppStatus × List WinAction × List String :=
  match run with
  | .ok => (s, [], ["Initializing Gradio boot sequence..."])
  | .importFails e => (s, [], ["Backend launch failed: " ++ e])
  | .launchFails e =>
    (s, [], ["Initializing Gradio boot sequence...", "Backend launch failed: " ++ e])

/-! ### `PermissionsManager.ensure_microphone` -/

/-- The native interactions of `ensure_microphone`, each of which can
raise: whether the PyObjC imports succeeded, the result of
`authorizationStatusForMediaType_`, the dummy-capture-session block,
`requestAccessForMediaType_completionHandler_`, what the run-loop wait
observed in `result_holder` (`none`: 60 s elapsed with no callback),
and the sounddevice reset. -/
structure MicEnv where
  avAvailable : Bool
  statusResult : Except String ℤ
  dummyOutcome : Except String Unit
  requestOutcome : Except String Unit
  grantResult : Option Bool
  sdResetOutcome : Except String Unit

/-- The `try` body of `ensure_microphone`.  The dummy capture session
has its own inner `try/except` whose failure is logged at debug level
and swallowed (`dummyOutcome` therefore never influences the result);
the sounddevice reset failure is likewise only logged.  `.error`
models an exception escaping the body into the outer handler. -/
def ensureMicrophoneBody (env : MicEnv) : Except String Bool :=
  if env.avAvailable = false then Except.error "PyObjC not initialized"
  else
    match env.statusResult with
    | .error e => Except.error e
    | .ok st =>
      if st = 3 then Except.ok true
      else if st = 1 ∨ st = 2 then Except.ok false
      else if st = 0 then
        match env.requestOutcome with
        | .error e => Except.error e
        | .ok _ =>
          match env.grantResult with
          | some true => Except.ok true
          | _ => Except.ok false
      else Except.ok false

/-- `PermissionsManager.ensure_microphone`: the outer
`except Exception` logs and returns `False`. -/
def ensureMicrophone (env : MicEnv) : Bool :=
  match ensureMicrophoneBody env with
  | .ok b => b
  | .error _ => false

/-! ### `build_macos.py`: `clean_dir` -/

/-- Filesystem actions of `clean_dir`, in order. -/
inductive FsAct where
  | tryRm
  | sleep1
  | shellRm
deriving DecidableEq

/-- The `for i in range(3)` retry loop: attempt `shutil.rmtree`
(`res k = true` means attempt `k` succeeds), return on success, sleep
1 s on failure; after the loop, `os.system("rm -rf ...")`. -/
def cleanDirGo (res : ℕ → Bool) : ℕ → ℕ → List FsAct
  | 0, _ => [FsAct.shellRm]
  | n + 1, k =>
    FsAct.tryRm :: (if res k then [] else FsAct.sleep1 :: cleanDirGo res n (k + 1))

/-- `clean_dir(path)`: nothing at all when the path does not exist. -/
def cleanDir (present : Bool) (res : ℕ → Bool) : List FsAct :=
  if present then cleanDirGo res 3 0 else []

/-! ### `build_macos.py`: Info.plist patching -/

/-- A property-list value among those the script assigns. -/
inductive PVal where
  | str (s : String)
  | bool (b : Bool)
deriving DecidableEq

/-- Python dict assignment `plist[k] = v` on an insertion-ordered
association list: overwrite in place or append. -/
def setKey : List (String × PVal) → String → PVal → List (String × PVal)
  | [], k, v => [(k, v)]
  | (k0, v0) :: rest, k, v =>
    if k0 = k then (k, v) :: rest else (k0, v0) :: setKey rest k v

/-- Dict lookup. -/
def lookupKey : List (String × PVal) → String → Option PVal
  | [], _ => none
  | (k0, v0) :: rest, k => if k0 = k then some v0 else lookupKey rest k

/-- The ten assignments `build_macos.py` performs on the loaded
Info.plist, in source order. -/
def patchPlist (pl : List (String × PVal)) : List (String × PVal) :=
  let pl := setKey pl "NSMicrophoneUsageDescription"
    (PVal.str "Applio needs microphone access to record audio for voice conversion.")
  let pl := setKey pl "NSCameraUsageDescription"
    (PVal.str "Applio needs camera access for visual processing.")
  let pl := setKey pl "NSDesktopFolderUsageDescription"
    (PVal.str "Applio needs desktop access to save and load models.")
  let pl := setKey pl "NSDocumentsFolderUsageDescription"
    (PVal.str "Applio needs documents access to save audio exports.")
  let pl := setKey pl "NSDownloadsFolderUsageDescription"
    (PVal.str "Applio needs downloads access to retrieve models.")
  let pl := setKey pl "NSAppleEventsUsageDescription"
    (PVal.str "Applio needs apple events access for automation.")
  let pl := setKey pl "CFBundleShortVersionString" (PVal.str "3.6.0")
  let pl := setKey pl "CFBundleVersion" (PVal.str "3.6.0")
  let pl := setKey pl "NSHumanReadableCopyright"
    (PVal.str "Copyright © 2026 IAHispano. All rights reserved.")
  setKey pl "NSHighResolutionCapable" (PVal.bool true)

/-! ### Concrete sample inputs used by witnesses and counterexamples -/

/-- A download-progress log line. -/
def sampleDlLine : String := "Downloading model.bin 45%"

/-- A short line that matches no classifier pattern. -/
def sampleShortLine : String := "abc"

/-- A long pattern-free log line (82 characters, `:root:`-free). -/
def sampleFallbackLine : String :=
  "some long unmatched diagnostic output that goes on well past the sixty char cutoff"

/-- A Gradio startup-success log line. -/
def sampleSuccessLine : String := "Running on local URL:  http://127.0.0.1:6969"

/-- A permission environment whose native status query raises. -/
def micEnvFail : MicEnv :=
  { avAvailable := true
    statusResult := Except.error "boom"
    dummyOutcome := Except.ok ()
    requestOutcome := Except.ok ()
    grantResult := none
    sdResetOutcome := Except.ok () }

/-! ## Helper lemmas -/

theorem creep_progress_le (s : AppStatus) : s.progress ≤ (creep s).progress := by
  unfold creep
  split
  · rename_i h
    have hp : (0 : ℚ) ≤ 100 - s.progress := by linarith [h.2]
    have := div_nonneg hp (by norm_num : (0 : ℚ) ≤ 2000)
    simp only
    linarith
  · exact le_refl _

theorem classify_progress_le (s : AppStatus) (l : List Char)
    (h : successMatch l = false) : s.progress ≤ (classify s l).1.progress := by
  unfold classify
  repeat' split
  all_goals (try simp_all)
  all_goals (repeat' split)
  all_goals (try simp_all)
  all_goals linarith

theorem classify_return (s : AppStatus) (l : List Char) :
    (classify s l).2 = true →
      successMatch l = true ∧ (classify s l).1.stage = "4/4" ∧
      (classify s l).1.heading = "Initialization Complete" ∧
      (classify s l).1.progress = 100 ∧ (classify s l).1.is_ready = true := by
  unfold classify
  repeat' split
  all_goals simp_all

theorem classify_no_return (s : AppStatus) (l : List Char)
    (h : successMatch l = false) : (classify s l).2 = false := by
  unfold classify
  repeat' split
  all_goals simp_all

/-! ## C1 -/

/-- C1: while `is_ready` is false, every branch of the tailer other
than the success branch (the anti-stall creep, the
`val > self.progress`-guarded download-percent update, the
prerequisite branch forcing 10 only when below 10, the boot branch
forcing 80 only when below 80, all remaining branches and the
fallback, which never write `progress`) leaves `progress` greater
than or equal to its previous value. -/
theorem c1_progress_monotone (s : AppStatus) (raw : String)
    (_hready : s.is_ready = false)
    (hsucc : successMatch (stripB raw.data) = false) :
    s.progress ≤ (stepLine s raw).1.progress := by
  unfold stepLine
  simp only
  split
  · exact creep_progress_le s
  · split
    · exact creep_progress_le s
    · exact le_trans (creep_progress_le s) (classify_progress_le (creep s) _ hsucc)

theorem c1_witness :
    initStatus.is_ready = false ∧
    successMatch (stripB sampleDlLine.data) = false ∧
    initStatus.progress ≤ (stepLine initStatus sampleDlLine).1.progress :=
  ⟨rfl, by decide, c1_progress_monotone initStatus sampleDlLine rfl (by decide)⟩

/-! ## C5 -/

/-- C5: the per-line step of `tail_logs` signals `return` only on a
line matching a success pattern (`Running on local URL:` or
`Gradio backend is responsive`), and at that point stage is `4/4`,
heading is `Initialization Complete`, progress is 100 and `is_ready`
is true; on a line matching neither success pattern the loop
continues. -/
theorem c5_return_only_on_success (s : AppStatus) (raw : String) :
    ((stepLine s raw).2 = true →
      successMatch (stripB raw.data) = true ∧
      (stepLine s raw).1.stage = "4/4" ∧
      (stepLine s raw).1.heading = "Initialization Complete" ∧
      (stepLine s raw).1.progress = 100 ∧
      (stepLine s raw).1.is_ready = true) ∧
    (successMatch (stripB raw.data) = false → (stepLine s raw).2 = false) := by
  unfold stepLine
  dsimp only
  split
  · exact ⟨fun h => by simp at h, fun _ => rfl⟩
  · split
    · exact ⟨fun h => by simp at h, fun _ => rfl⟩
    · exact ⟨classify_return _ _, classify_no_return _ _⟩

theorem c5_witness :
    (stepLine initStatus sampleSuccessLine).2 = true ∧
    successMatch (stripB sampleSuccessLine.data) = true ∧
    (stepLine initStatus sampleSuccessLine).1.stage = "4/4" ∧
    (stepLine initStatus sampleSuccessLine).1.heading = "Initialization Complete" ∧
    (stepLine initStatus sampleSuccessLine).1.progress = 100 ∧
    (stepLine initStatus sampleSuccessLine).1.is_ready = true :=
  ⟨by decide,
   (c5_return_only_on_success initStatus sampleSuccessLine).1 (by decide)⟩

/-! ## C6 -/

theorem isSome_false_eq_none {α : Type} {o : Option α} (h : o.isSome = false) :
    o = none := by
  cases o <;> simp_all

/-- Splits a failed `anyPatternMatch` into the nine per-pattern facts. -/
theorem noneMatch_split (l : List Char) (h : anyPatternMatch l = false) :
    dlPercentVal l = none ∧ dlFileCap l = none ∧ extractCap l = none ∧
    pipCap l = none ∧ containsB prereqLit l = false ∧ deviceCap l = none ∧
    containsB initAppLit l = false ∧ loadModelCap l = none ∧
    successMatch l = false := by
  simp only [anyPatternMatch, Bool.or_eq_false_iff] at h
  obtain ⟨⟨⟨⟨⟨⟨⟨⟨h1, h2⟩, h3⟩, h4⟩, h5⟩, h6⟩, h7⟩, h8⟩, h9⟩ := h
  exact ⟨isSome_false_eq_none h1, isSome_false_eq_none h2, isSome_false_eq_none h3,
    isSome_false_eq_none h4, h5, isSome_false_eq_none h6, h7,
    isSome_false_eq_none h8, h9⟩

theorem classify_fallback_frame (s : AppStatus) (l : List Char)
    (h : anyPatternMatch l = false) :
    (classify s l).1.heading = s.heading ∧
    (classify s l).1.stage = s.stage ∧
    (classify s l).1.progress = s.progress ∧
    (classify s l).1.is_ready = s.is_ready ∧
    ((classify s l).1.sub_heading = s.sub_heading ∨
      (s.stage = "1/4" ∧ s.sub_heading = "Initializing environment..." ∧
       (classify s l).1.sub_heading = "Configuring Runtime...")) := by
  obtain ⟨h1, h2, h3, h4, h5, h6, h7, h8, h9⟩ := noneMatch_split l h
  unfold classify
  rw [h1, h2, h3, h4, h5, h6, h7, h8, h9]
  simp only [Bool.false_eq_true, if_false]
  split
  · split
    · rename_i hg hc
      exact ⟨rfl, rfl, rfl, rfl, Or.inr ⟨hc.1, hc.2, rfl⟩⟩
    · exact ⟨rfl, rfl, rfl, rfl, Or.inl rfl⟩
  · exact ⟨rfl, rfl, rfl, rfl, Or.inl rfl⟩

/-- C6: a line taken by the generic fallback of `tail_logs` (no
pattern matched) leaves heading, stage and `is_ready` unchanged,
leaves progress at exactly the value produced by the anti-stall creep
of that iteration, and changes `sub_heading` only in the single case
where stage is `1/4` and `sub_heading` still holds its initial value,
in which case it becomes `Configuring Runtime...`; only
`technical_detail` is otherwise written. -/
theorem c6_fallback_frame (s : AppStatus) (raw : String)
    (h : anyPatternMatch (stripB raw.data) = false) :
    (stepLine s raw).1.heading = s.heading ∧
    (stepLine s raw).1.stage = s.stage ∧
    (stepLine s raw).1.progress = (creep s).progress ∧
    (stepLine s raw).1.is_ready = s.is_ready ∧
    ((stepLine s raw).1.sub_heading = s.sub_heading ∨
      (s.stage = "1/4" ∧ s.sub_heading = "Initializing environment..." ∧
       (stepLine s raw).1.sub_heading = "Configuring Runtime...")) := by
  have hcreep : (creep s).heading = s.heading ∧ (creep s).stage = s.stage ∧
      (creep s).is_ready = s.is_ready ∧ (creep s).sub_heading = s.sub_heading := by
    unfold creep; split <;> exact ⟨rfl, rfl, rfl, rfl⟩
  unfold stepLine
  dsimp only
  split
  · exact ⟨hcreep.1, hcreep.2.1, rfl, hcreep.2.2.1, Or.inl hcreep.2.2.2⟩
  · split
    · exact ⟨hcreep.1, hcreep.2.1, rfl, hcreep.2.2.1, Or.inl hcreep.2.2.2⟩
    · have hf := classify_fallback_frame (creep s) (stripB raw.data) h
      refine ⟨hf.1.trans hcreep.1, hf.2.1.trans hcreep.2.1, hf.2.2.1,
        hf.2.2.2.1.trans hcreep.2.2.1, ?_⟩
      rcases hf.2.2.2.2 with hl | ⟨ha, hb, hc⟩
      · exact Or.inl (hl.trans hcreep.2.2.2)
      · exact Or.inr ⟨hcreep.2.1 ▸ ha, hcreep.2.2.2 ▸ hb, hc⟩

theorem c6_witness :
    anyPatternMatch (stripB sampleFallbackLine.data) = false ∧
    (stepLine initStatus sampleFallbackLine).1.heading = initStatus.heading ∧
    (stepLine initStatus sampleFallbackLine).1.stage = initStatus.stage ∧
    (stepLine initStatus sampleFallbackLine).1.progress = (creep initStatus).progress ∧
    (stepLine initStatus sampleFallbackLine).1.is_ready = initStatus.is_ready :=
  ⟨by decide,
   (c6_fallback_frame initStatus sampleFallbackLine (by decide)).1,
   (c6_fallback_frame initStatus sampleFallbackLine (by decide)).2.1,
   (c6_fallback_frame initStatus sampleFallbackLine (by decide)).2.2.1,
   (c6_fallback_frame initStatus sampleFallbackLine (by decide)).2.2.2.1⟩

/-! ## C4 (corrected) -/

/-- C4 counterexample: `abc` matches no pattern, yet the fallback does
not display it — `technical_detail` keeps its previous value because
the line is not longer than 8 characters, contradicting the claim
that every unmatched line is displayed (truncated) in
`technical_detail`. -/
theorem c4_counterexample :
    anyPatternMatch (stripB sampleShortLine.data) = false ∧
    (stepLine initStatus sampleShortLine).1.technical_detail =
      initStatus.technical_detail ∧
    initStatus.technical_detail ≠ sampleShortLine := by
  decide

/-- C4 (amended): classification is an ordered first-match-wins
if/elif chain — whenever `p_dl_percent` matches, its branch alone
fires (stage `2/4`, heading `Synchronizing Assets`) no matter which
later patterns also match — and a line matching no pattern falls
through to the generic fallback, which displays the line in
`technical_detail` (stripped to the text after the first `:root:`
when present, and cut to 57 characters plus `...` when longer than
60) only when the line is longer than 8 characters and does not
contain `it/s]`; otherwise it leaves `technical_detail` unchanged. -/
theorem c4_first_match_and_fallback (s : AppStatus) (l : List Char) :
    (∀ v, dlPercentVal l = some v →
      (classify s l).1.stage = "2/4" ∧
      (classify s l).1.heading = "Synchronizing Assets") ∧
    (anyPatternMatch l = false →
      ((8 < l.length ∧ containsB itsLit l = false) →
        (classify s l).1.technical_detail = String.mk (trunc60 (rootClean l))) ∧
      (¬(8 < l.length ∧ containsB itsLit l = false) →
        (classify s l).1.technical_detail = s.technical_detail)) := by
  constructor
  · intro v hv
    unfold classify
    rw [hv]
    dsimp only
    split <;> exact ⟨rfl, rfl⟩
  · intro h
    obtain ⟨h1, h2, h3, h4, h5, h6, h7, h8, h9⟩ := noneMatch_split l h
    unfold classify
    rw [h1, h2, h3, h4, h5, h6, h7, h8, h9]
    simp only [Bool.false_eq_true, if_false]
    constructor
    · intro hg
      rw [if_pos hg]
      split <;> rfl
    · intro hg
      rw [if_neg hg]

theorem c4_witness :
    anyPatternMatch (stripB sampleFallbackLine.data) = false ∧
    (classify initStatus (stripB sampleFallbackLine.data)).1.technical_detail =
      String.mk (trunc60 (rootClean (stripB sampleFallbackLine.data))) :=
  ⟨by decide,
   ((c4_first_match_and_fallback initStatus (stripB sampleFallbackLine.data)).2
     (by decide)).1 ⟨by decide, by decide⟩⟩

/-! ## C2 -/

theorem waitLoopAux_true_iff (probe : ℕ → Poll) (elapsed : ℕ → ℚ) :
    ∀ fuel k0, (waitLoopAux probe elapsed fuel k0).1 = some true ↔
      ∃ i, k0 ≤ i ∧ i < k0 + fuel ∧ probe i = Poll.ok 200 ∧
        ∀ j, k0 ≤ j → j ≤ i → elapsed j < backendTimeout := by
  intro fuel
  induction fuel with
  | zero =>
    intro k0
    constructor
    · intro h; simp [waitLoopAux] at h
    · rintro ⟨i, hki, hlt, -⟩; omega
  | succ n ih =>
    intro k0
    by_cases ht : elapsed k0 < backendTimeout
    · cases hp : probe k0 with
      | ok st =>
        by_cases h200 : st = 200
        · subst h200
          simp only [waitLoopAux, if_pos ht, hp]
          constructor
          · intro _
            exact ⟨k0, le_refl _, by omega, hp,
              fun j hj1 hj2 => by
                have : j = k0 := le_antisymm hj2 hj1
                subst this; exact ht⟩
          · intro _; rfl
        · have hstep : (waitLoopAux probe elapsed (n + 1) k0).1 =
              (waitLoopAux probe elapsed n (k0 + 1)).1 := by
            simp [waitLoopAux, if_pos ht, hp, h200]
          rw [hstep, ih (k0 + 1)]
          constructor
          · rintro ⟨i, hki, hlt, hpi, hall⟩
            refine ⟨i, by omega, by omega, hpi, fun j hj1 hj2 => ?_⟩
            rcases Nat.eq_or_lt_of_le hj1 with rfl | hgt
            · exact ht
            · exact hall j (by omega) hj2
          · rintro ⟨i, hki, hlt, hpi, hall⟩
            have hne : i ≠ k0 := fun he => by rw [he, hp] at hpi; simp_all
            refine ⟨i, by omega, by omega, hpi, fun j hj1 hj2 => hall j (by omega) hj2⟩
      | exc =>
        have hstep : (waitLoopAux probe elapsed (n + 1) k0).1 =
            (waitLoopAux probe elapsed n (k0 + 1)).1 := by
          simp [waitLoopAux, if_pos ht, hp]
        rw [hstep, ih (k0 + 1)]
        constructor
        · rintro ⟨i, hki, hlt, hpi, hall⟩
          refine ⟨i, by omega, by omega, hpi, fun j hj1 hj2 => ?_⟩
          rcases Nat.eq_or_lt_of_le hj1 with rfl | hgt
          · exact ht
          · exact hall j (by omega) hj2
        · rintro ⟨i, hki, hlt, hpi, hall⟩
          have hne : i ≠ k0 := fun he => by rw [he, hp] at hpi; simp_all
          refine ⟨i, by omega, by omega, hpi, fun j hj1 hj2 => hall j (by omega) hj2⟩
    · simp only [waitLoopAux, if_neg ht]
      constructor
      · intro h; simp at h
      · rintro ⟨i, hki, -, -, hall⟩
        exact absurd (hall k0 (le_refl _) hki) ht

theorem waitLoopAux_sleeps (probe : ℕ → Poll) (elapsed : ℕ → ℚ) :
    ∀ fuel k0 q, q ∈ (waitLoopAux probe elapsed fuel k0).2 → q = sleepInterval := by
  intro fuel
  induction fuel with
  | zero => intro k0 q hq; simp [waitLoopAux] at hq
  | succ n ih =>
    intro k0 q hq
    unfold waitLoopAux at hq
    split at hq
    · split at hq
      · split at hq
        · simp at hq
        · exact ih (k0 + 1) q hq
      · simp only [List.mem_cons] at hq
        rcases hq with rfl | hq
        · rfl
        · exact ih (k0 + 1) q hq
    · simp at hq

/-- C2: `monitor_transition` loads the real backend URL into the
window exactly when `wait_for_backend` (timeout constant 300 seconds)
observes an HTTP 200 from a probe reached before the timeout; on a
decided timeout it loads the inline error page, as the single window
action; and every sleep the poll loop performs is the fixed 1-second
interval. -/
theorem c2_transition_iff (probe : ℕ → Poll) (elapsed : ℕ → ℚ) (fuel : ℕ) :
    (monitorTransition probe elapsed fuel true = [WinAction.loadUrl backendUrl] ↔
      ∃ i, i < fuel ∧ observes200 probe elapsed i) ∧
    ((waitForBackend probe elapsed fuel).1 = some false →
      monitorTransition probe elapsed fuel true = [WinAction.loadHtml startupErrorHtml]) ∧
    (∀ q ∈ (waitForBackend probe elapsed fuel).2, q = sleepInterval) := by
  have key : (waitForBackend probe elapsed fuel).1 = some true ↔
      ∃ i, i < fuel ∧ observes200 probe elapsed i := by
    rw [waitForBackend, waitLoopAux_true_iff probe elapsed fuel 0]
    constructor
    · rintro ⟨i, -, hlt, hpi, hall⟩
      exact ⟨i, by omega, hpi, fun j hj => hall j (Nat.zero_le _) hj⟩
    · rintro ⟨i, hlt, hpi, hall⟩
      exact ⟨i, Nat.zero_le _, by omega, hpi, fun j _ hj => hall j hj⟩
  refine ⟨?_, ?_, waitLoopAux_sleeps probe elapsed fuel 0⟩
  · rw [← key]
    unfold monitorTransition
    cases hw : (waitForBackend probe elapsed fuel).1 with
    | none => simp
    | some b => cases b <;> simp
  · intro hw
    unfold monitorTransition
    rw [hw]
    rfl

theorem c2_witness :
    monitorTransition (fun _ => Poll.ok 200) (fun _ => 0) 1 true =
      [WinAction.loadUrl backendUrl] :=
  (c2_transition_iff (fun _ => Poll.ok 200) (fun _ => 0) 1).1.mpr
    ⟨0, by omega, rfl, fun j _ => by norm_num [backendTimeout]⟩

/-! ## C3 (corrected) -/

/-- C3 counterexample: the status JSON does not have exactly four
fields — it has five, the fifth (`sub_heading`) not being among the
four documented ones (`heading`, `progress`, `stage`, `detail`). -/
theorem c3_counterexample :
    doGET "/api/status" initStatus (Except.ok "") =
      (200, "application/json", HttpBody.json (statusJson initStatus)) ∧
    (statusJson initStatus).length = 5 ∧
    ((statusJson initStatus).map Prod.fst ≠
      ["heading", "progress", "stage", "detail"]) ∧
    "sub_heading" ∈ (statusJson initStatus).map Prod.fst := by
  refine ⟨rfl, rfl, by decide, by decide⟩

/-- C3 (amended): for every state of the shared status record, a GET
of `/api/status` answers 200 with content type `application/json` and
a well-formed JSON object containing exactly five fields in fixed
order — `heading`, `sub_heading`, `progress`, `stage`, `detail` —
where `progress` is numeric and the other four are strings. -/
theorem c3_status_json (s : AppStatus) (pg : Except String String) :
    (doGET "/api/status" s pg).1 = 200 ∧
    (doGET "/api/status" s pg).2.1 = "application/json" ∧
    (doGET "/api/status" s pg).2.2 = HttpBody.json (statusJson s) ∧
    (statusJson s).map Prod.fst =
      ["heading", "sub_heading", "progress", "stage", "detail"] ∧
    (∀ k v, (k, v) ∈ statusJson s →
      (k = "progress" ∧ ∃ q, v = JVal.num q) ∨ ∃ t, v = JVal.str t) := by
  refine ⟨rfl, rfl, rfl, rfl, ?_⟩
  intro k v hv
  simp only [statusJson, List.mem_cons, List.not_mem_nil, or_false,
    Prod.mk.injEq] at hv
  rcases hv with ⟨rfl, rfl⟩ | ⟨rfl, rfl⟩ | ⟨rfl, rfl⟩ | ⟨rfl, rfl⟩ | ⟨rfl, rfl⟩
  · exact Or.inr ⟨s.heading, rfl⟩
  · exact Or.inr ⟨s.sub_heading, rfl⟩
  · exact Or.inl ⟨rfl, round1 s.progress, rfl⟩
  · exact Or.inr ⟨s.stage, rfl⟩
  · exact Or.inr ⟨s.technical_detail, rfl⟩

/-! ## C7 -/

/-- C7: whatever happens inside `start_backend` — import failure,
launch failure, or success — the status record is untouched, no window
action is performed (so the window stays on the loading screen, to be
handled by `monitor_transition`), the function returns normally, and a
raised exception is logged as `Backend launch failed: ...`. -/
theorem c7_backend_exception_contained (run : BackendRun) (s : AppStatus) :
    (startBackend run s).1 = s ∧
    (startBackend run s).2.1 = [] ∧
    (∀ e, run = BackendRun.importFails e ∨ run = BackendRun.launchFails e →
      ("Backend launch failed: " ++ e) ∈ (startBackend run s).2.2) := by
  refine ⟨?_, ?_, ?_⟩
  · cases run <;> rfl
  · cases run <;> rfl
  · intro e he
    rcases he with he | he <;> subst he <;> simp [startBackend]

theorem c7_witness :
    ("Backend launch failed: " ++ "boom") ∈
      (startBackend (BackendRun.launchFails "boom") initStatus).2.2 :=
  (c7_backend_exception_contained (BackendRun.launchFails "boom") initStatus).2.2
    "boom" (Or.inr rfl)

/-! ## C8 -/

/-- C8: `ensure_microphone` always produces a boolean — an exception
escaping its body is caught by the outer handler and yields `False`,
and a failure of the dummy capture session changes nothing (the inner
handler swallows it and the permission request proceeds), so the
result for a failing dummy session equals the result for a succeeding
one. -/
theorem c8_mic_errors_contained (env : MicEnv) :
    ((∃ e, ensureMicrophoneBody env = Except.error e) →
      ensureMicrophone env = false) ∧
    (∀ m, ensureMicrophone { env with dummyOutcome := Except.error m } =
      ensureMicrophone { env with dummyOutcome := Except.ok () }) ∧
    (ensureMicrophone env = true ∨ ensureMicrophone env = false) := by
  refine ⟨?_, ?_, ?_⟩
  · rintro ⟨e, he⟩
    simp [ensureMicrophone, he]
  · intro m; rfl
  · cases h : ensureMicrophone env
    · exact Or.inr rfl
    · exact Or.inl rfl

theorem c8_witness : ensureMicrophone micEnvFail = false :=
  (c8_mic_errors_contained micEnvFail).1 ⟨"boom", rfl⟩

/-! ## C9 -/

/-- C9: `clean_dir` does nothing when the path is absent; when
present it attempts `shutil.rmtree` at most three times, sleeping one
second after each failure, stops at the first success, and only after
three failures falls back to the shell `rm -rf`. -/
theorem c9_clean_dir (res : ℕ → Bool) :
    cleanDir false res = [] ∧
    (cleanDir true res).count FsAct.tryRm ≤ 3 ∧
    (res 0 = true → cleanDir true res = [FsAct.tryRm]) ∧
    ((res 0 = false ∧ res 1 = false ∧ res 2 = false) →
      cleanDir true res = [FsAct.tryRm, FsAct.sleep1, FsAct.tryRm, FsAct.sleep1,
        FsAct.tryRm, FsAct.sleep1, FsAct.shellRm]) ∧
    (FsAct.shellRm ∈ cleanDir true res ↔
      res 0 = false ∧ res 1 = false ∧ res 2 = false) := by
  have e : cleanDir true res = FsAct.tryRm ::
      (if res 0 then [] else FsAct.sleep1 :: FsAct.tryRm ::
        (if res 1 then [] else FsAct.sleep1 :: FsAct.tryRm ::
          (if res 2 then [] else FsAct.sleep1 :: [FsAct.shellRm]))) := rfl
  refine ⟨rfl, ?_⟩
  cases h0 : res 0 <;> cases h1 : res 1 <;> cases h2 : res 2 <;> simp_all [e]

/-- C9 applied where every `rmtree` attempt fails: three attempts,
three sleeps, then the shell fallback. -/
theorem c9_witness :
    cleanDir true (fun _ => false) = [FsAct.tryRm, FsAct.sleep1, FsAct.tryRm,
      FsAct.sleep1, FsAct.tryRm, FsAct.sleep1, FsAct.shellRm] :=
  (c9_clean_dir (fun _ => false)).2.2.2.1 ⟨rfl, rfl, rfl⟩

/-! ## C10 -/

theorem lookupKey_setKey_same (pl : List (String × PVal)) (k : String) (v : PVal) :
    lookupKey (setKey pl k v) k = some v := by
  induction pl with
  | nil => simp [setKey, lookupKey]
  | cons hd tl ih =>
    obtain ⟨k0, v0⟩ := hd
    by_cases h : k0 = k
    · simp [setKey, h, lookupKey]
    · simp [setKey, h, lookupKey, ih]

theorem lookupKey_setKey_other (pl : List (String × PVal)) (k k2 : String)
    (v : PVal) (h : k ≠ k2) : lookupKey (setKey pl k v) k2 = lookupKey pl k2 := by
  induction pl with
  | nil => simp [setKey, lookupKey, h]
  | cons hd tl ih =>
    obtain ⟨k0, v0⟩ := hd
    by_cases hk : k0 = k
    · subst hk
      simp [setKey, lookupKey, h]
    · simp [setKey, hk, lookupKey, ih]

/-- C10: whatever Info.plist PyInstaller produced, the patching step
unconditionally writes the constant `3.6.0` into both
`CFBundleShortVersionString` and `CFBundleVersion`, so two runs of the
build script yield bundles with identical declared version fields. -/
theorem c10_version_idempotent (pl pl2 : List (String × PVal)) :
    lookupKey (patchPlist pl) "CFBundleShortVersionString" =
      some (PVal.str "3.6.0") ∧
    lookupKey (patchPlist pl) "CFBundleVersion" = some (PVal.str "3.6.0") ∧
    lookupKey (patchPlist pl) "CFBundleShortVersionString" =
      lookupKey (patchPlist pl2) "CFBundleShortVersionString" ∧
    lookupKey (patchPlist pl) "CFBundleVersion" =
      lookupKey (patchPlist pl2) "CFBundleVersion" := by
  have hs : ∀ q : List (String × PVal),
      lookupKey (patchPlist q) "CFBundleShortVersionString" =
        some (PVal.str "3.6.0") := by
    intro q
    simp only [patchPlist]
    rw [lookupKey_setKey_other _ _ _ _ (by decide),
      lookupKey_setKey_other _ _ _ _ (by decide),
      lookupKey_setKey_other _ _ _ _ (by decide),
      lookupKey_setKey_same]
  have hv : ∀ q : List (String × PVal),
      lookupKey (patchPlist q) "CFBundleVersion" = some (PVal.str "3.6.0") := by
    intro q
    simp only [patchPlist]
    rw [lookupKey_setKey_other _ _ _ _ (by decide),
      lookupKey_setKey_other _ _ _ _ (by decide),
      lookupKey_setKey_same]
  exact ⟨hs pl, hv pl, (hs pl).trans (hs pl2).symm, (hv pl).trans (hv pl2).symm⟩

end Applio
